import Mathlib

/-!
Shallow embedding of the file-uploader validation-and-pipeline core
(`src/lib/core/validator.ts`, `src/lib/core/processor.ts`) and proofs
about it.  JavaScript strings are modelled as Lean `String`s with the
relevant operations (`startsWith`, `endsWith`, one-shot `replace`)
re-implemented over their character lists; JavaScript numbers that the
core uses as integral byte counts / timestamps are modelled as `Int`.
-/

namespace FileUploader

/-- A browser `File` as the core consumes it: name, byte size, declared
MIME type, last-modified timestamp, and raw byte content. -/
structure JSFile where
  name : String
  size : Int
  type : String
  lastModified : Int
  content : String
  deriving Repr, DecidableEq

/-- JavaScript `p.isPrefixOf s`-style `s.startsWith(p)`. -/
def strStartsWith (s p : String) : Bool :=
  p.data.isPrefixOf s.data

/-- JavaScript `s.endsWith(p)`. -/
def strEndsWith (s p : String) : Bool :=
  p.data.isSuffixOf s.data

/-- Helper for `replaceFirstStr`: remove the first occurrence of `pat`
from the character list, or return the list unchanged when `pat` does
not occur (JavaScript `String.prototype.replace` with a string pattern
and empty replacement replaces only the first occurrence). -/
def replaceFirstAux (pat : List Char) : List Char → List Char
  | [] => []
  | c :: cs =>
    if pat.isPrefixOf (c :: cs) then (c :: cs).drop pat.length
    else c :: replaceFirstAux pat cs

/-- JavaScript `s.replace(pat, '')` for a string pattern: removes the
first occurrence of `pat` only. -/
def replaceFirstStr (s pat : String) : String :=
  String.mk (replaceFirstAux pat.data s.data)

/-- JavaScript `s.toLowerCase()`, over the character list. -/
def strToLower (s : String) : String :=
  String.mk (s.data.map Char.toLower)

/-- Suffix of the character list after its last `'.'`, `none` when no
dot occurs. -/
def afterLastDot : List Char → Option (List Char)
  | [] => none
  | c :: cs =>
    match afterLastDot cs with
    | some r => some r
    | none => if c = '.' then some cs else none

/-- Modelled from the spec: `utils.getExtension` (the `utils` module is
not under `src/`).  Per the spec, the extension is the lowercase
substring of the name after the last `.`, empty if the name has no dot
("extension (lowercased, no leading dot)"). -/
def getExtension (name : String) : String :=
  match afterLastDot name.data with
  | none => ""
  | some r => strToLower (String.mk r)

/-- Modelled from the spec: `utils.formatBytes` (the `utils` module is
not under `src/`).  The spec only asks for "human-readable byte
quantities" and fixes no format, so the count is rendered directly;
no claim depends on this string's shape. -/
def formatBytes (n : Int) : String :=
  toString n ++ " bytes"

/-- Result of a custom validator function: JavaScript `true`, a string,
or any other value (the code treats everything that is not `true` and
not a string as the generic-failure case; `false` is its representative). -/
inductive CustomResult where
  | pass
  | msg (s : String)
  | fail
  deriving Repr

/-- One entry of `config.customValidators`: `{type, fn}`. -/
structure CustomValidatorEntry where
  type : String
  fn : JSFile → CustomResult

/-- The partial user configuration `FileValidatorConfig` (every field
optional). -/
structure FileValidatorConfig where
  maxSize : Option Int
  minSize : Option Int
  allowedTypes : Option (List String)
  allowedExtensions : Option (List String)
  maxFiles : Option Int
  validateFileName : Option Bool
  customValidators : Option (List CustomValidatorEntry)

/-- The resolved configuration `Required<FileValidatorConfig>` held by a
constructed `FileValidator`. -/
structure ResolvedConfig where
  maxSize : Int
  minSize : Int
  allowedTypes : List String
  allowedExtensions : List String
  maxFiles : Int
  validateFileName : Bool
  customValidators : List CustomValidatorEntry

/-- JavaScript `x || d` for an optional number field: `undefined` and
`0` are falsy and yield the default. -/
def jsOrInt (v : Option Int) (d : Int) : Int :=
  match v with
  | none => d
  | some x => if x = 0 then d else x

/-- JavaScript `b || d` for an optional boolean field: `undefined` and
`false` are falsy and yield the default. -/
def jsOrBool (v : Option Bool) (d : Bool) : Bool :=
  match v with
  | none => d
  | some b => if b then b else d

/-- JavaScript `l || d` for an optional array field: arrays (empty
included) are truthy, only `undefined` yields the default. -/
def jsOrList {α : Type} (v : Option (List α)) (d : List α) : List α :=
  match v with
  | none => d
  | some l => l

/-- The `FileValidator` constructor's config resolution
(`validator.ts` lines 42–50). -/
def resolveConfig (config : FileValidatorConfig) : ResolvedConfig :=
  { maxSize := jsOrInt config.maxSize (10 * 1024 ^ 2)
    minSize := jsOrInt config.minSize 0
    allowedTypes := jsOrList config.allowedTypes []
    allowedExtensions := jsOrList config.allowedExtensions []
    maxFiles := jsOrInt config.maxFiles 1
    validateFileName := jsOrBool config.validateFileName true
    customValidators := jsOrList config.customValidators [] }

/-- `ValidationResult`: outcome of checking one rule against one file.
The code's synthetic `maxFiles` error object carries no `valid` field,
hence `valid : Option Bool` (`none` models the absent field). -/
structure ValidationResult where
  valid : Option Bool
  rule : String
  file : String
  message : Option String
  deriving Repr, DecidableEq

/-- A `ValidationRule`: named predicate plus message builder. -/
structure ValidationRule where
  name : String
  validate : JSFile → ResolvedConfig → Bool
  message : JSFile → ResolvedConfig → String

/-- `ValidationRule.check` (`validator.ts` lines 26–34). -/
def ValidationRule.check (r : ValidationRule) (file : JSFile)
    (config : ResolvedConfig) : ValidationResult :=
  let result := r.validate file config
  { file := file.name
    valid := some result
    rule := r.name
    message := if result then none else some (r.message file config) }

/-- `true` iff the name contains a character of the class
`[<>:"|?*\x00-\x1F]` (the `fileName` rule's regular expression). -/
def hasInvalidChar (s : String) : Bool :=
  s.data.any (fun ch =>
    decide (ch = '<' ∨ ch = '>' ∨ ch = ':' ∨ ch = '"' ∨ ch = '|' ∨
            ch = '?' ∨ ch = '*' ∨ ch.toNat ≤ 0x1F))

/-- The `fileSize` rule (`validator.ts` lines 60–64). -/
def fileSizeRule : ValidationRule :=
  { name := "fileSize"
    validate := fun file config =>
      decide (file.size ≤ config.maxSize) && decide (file.size ≥ config.minSize)
    message := fun _ config =>
      "Kích thước file phải nằm trong khoảng từ " ++ formatBytes config.minSize ++
        " đến " ++ formatBytes config.maxSize }

/-- The `fileType` rule (`validator.ts` lines 66–78): empty allow-list
passes; a wildcard entry `t` ending in `/*` passes iff the file's type
starts with `t.replace('/*','')`; otherwise exact equality. -/
def fileTypeRule : ValidationRule :=
  { name := "fileType"
    validate := fun file config =>
      if config.allowedTypes.isEmpty then true
      else config.allowedTypes.any (fun t =>
        if strEndsWith t "/*" then strStartsWith file.type (replaceFirstStr t "/*")
        else file.type == t)
    message := fun file config =>
      "Loại file \"" ++ file.type ++ "\" không hợp lệ. Các loại được chấp nhận: " ++
        String.intercalate ", " config.allowedTypes }

/-- The `fileExtension` rule (`validator.ts` lines 80–88). -/
def fileExtensionRule : ValidationRule :=
  { name := "fileExtension"
    validate := fun file config =>
      if config.allowedExtensions.isEmpty then true
      else (config.allowedExtensions.map strToLower).contains (getExtension file.name)
    message := fun _ config =>
      "Phần định dạng file không hợp lệ. Chỉ chấp nhận: " ++
        String.intercalate ", " config.allowedExtensions }

/-- The `fileName` rule (`validator.ts` lines 90–98). -/
def fileNameRule : ValidationRule :=
  { name := "fileName"
    validate := fun file config =>
      if !config.validateFileName then true
      else !hasInvalidChar file.name &&
        decide (file.name.length > 0) && decide (file.name.length < 255)
    message := fun _ _ =>
      "Tên file không hợp lệ. Chứa ký tự không cho phép hoặc độ dài không phù hợp." }

/-- `FileValidator._initRules` (`validator.ts` lines 57–100). -/
def initRules : List ValidationRule :=
  [fileSizeRule, fileTypeRule, fileExtensionRule, fileNameRule]

/-- `FileValidationResult` as the declared interface has it; the code's
`validateFile` builds its return object without the declared `results`
field and casts, so the embedding gives `results` type
`Option (List ValidationResult)` with `none` for the absent field. -/
structure FileValidationResult where
  valid : Bool
  errors : List ValidationResult
  results : Option (List ValidationResult)
  file : JSFile
  deriving Repr, DecidableEq

/-- The custom-validator loop of `validateFile` (`validator.ts` lines
117–128).  Note the `break`: the first validator whose declared type
differs from the file's type ends the whole loop. -/
def runCustomValidators (file : JSFile) :
    List CustomValidatorEntry → List ValidationResult
  | [] => []
  | v :: rest =>
    if file.type ≠ v.type then []
    else
      match v.fn file with
      | .pass => runCustomValidators file rest
      | .msg s =>
        { valid := some false, rule := "custom", message := some s,
          file := file.name } :: runCustomValidators file rest
      | .fail =>
        { valid := some false, rule := "custom",
          message := some "Kiểm tra hợp lệ tùy chỉnh thất bại",
          file := file.name } :: runCustomValidators file rest

/-- `FileValidator.validateFile` (`validator.ts` lines 101–135): runs
every built-in rule collecting only failures, then the custom-validator
loop, and returns `{valid, errors, file}` (no `results`). -/
def validateFile (config : ResolvedConfig) (file : JSFile) : FileValidationResult :=
  let ruleErrors := initRules.filterMap (fun r =>
    let result := r.check file config
    match result.valid with
    | some true => none
    | _ => some { valid := some false, rule := result.rule,
                  message := result.message, file := file.name })
  let errors := ruleErrors ++ runCustomValidators file config.customValidators
  { valid := errors.isEmpty, errors := errors, results := none, file := file }

/-- `FilesValidationResult`; the short-circuit return object of
`validateFiles` carries no `results` field, modelled by `none`. -/
structure FilesValidationResult where
  valid : Bool
  errors : List ValidationResult
  results : Option (List FileValidationResult)
  deriving Repr, DecidableEq

/-- `FileValidator.validateFiles` (`validator.ts` lines 137–160). -/
def validateFiles (config : ResolvedConfig) (files : List JSFile) :
    FilesValidationResult :=
  if (files.length : Int) > config.maxFiles then
    { valid := false
      errors := [{ valid := none, rule := "maxFiles"
                   message := some ("Chỉ được chọn tối đa " ++ toString config.maxFiles ++
                     " file. Bạn đã chọn " ++ toString files.length ++ " file.")
                   file := "none" }]
      results := none }
  else
    let results := files.map (validateFile config)
    { valid := results.all (fun r => r.valid)
      errors := (results.map (fun r => r.errors)).flatten
      results := some results }

/-- The value flowing through the `beforeProcess` stage: in JavaScript a
`File` *is a* `Blob`, so the in-flight artifact starts as the original
`File` object and may be replaced by a plugin-produced blob. -/
inductive BlobVal where
  | file (f : JSFile)
  | blob (content : String)
  deriving Repr, DecidableEq

/-- Byte content carried by an in-flight `BlobVal`. -/
def contentOf : BlobVal → String
  | .file f => f.content
  | .blob s => s

/-- `FileMetadata` as `extractMetadata` fills it. -/
structure FileMetadata where
  id : String
  name : String
  size : Int
  type : String
  lastModified : Int
  extension : String
  deriving Repr, DecidableEq

/-- `ProcessedFile`: original file, (possibly transformed) blob, and
metadata. -/
structure ProcessedFile where
  original : JSFile
  blob : BlobVal
  metadata : FileMetadata
  deriving Repr, DecidableEq

/-- A processor plugin.  `beforeValidation` / `afterValidation` are
`void` hooks, so for the pipeline's data flow only their presence is
observable (side effects are recorded in the invocation log);
`beforeProcess` / `afterProcess` may return a replacement value (`none`
models a hook returning `undefined`, which leaves the in-flight value
unchanged — `processor.ts` lines 141–145); `onError` is likewise a
`void` hook. -/
structure Plugin where
  name : String
  beforeValidation : Bool
  afterValidation : Bool
  beforeProcess : Option (BlobVal → FileValidatorConfig → Option BlobVal)
  afterProcess : Option (ProcessedFile → Option ProcessedFile)
  onError : Bool

/-- One recorded hook invocation: (plugin name, hook name). -/
def Event : Type := String × String

/-- Invocation log of a fan-out over a `void` hook (`runHook` with
`beforeValidation` / `afterValidation`): every plugin that defines the
hook is called, in registration order; returned values are `undefined`
so nothing propagates. -/
def voidHookEvents (plugins : List Plugin) (has : Plugin → Bool)
    (hookName : String) : List Event :=
  plugins.filterMap (fun p => if has p then some (p.name, hookName) else none)

/-- `runHook('beforeProcess', file, config)` (`processor.ts` lines
133–150): fold over the plugins in registration order; a returned value
replaces the in-flight blob for the next plugin, a hook returning
`undefined` leaves it unchanged.  Also yields the invocation log. -/
def runBeforeProcess (cfg : FileValidatorConfig) :
    List Plugin → BlobVal → BlobVal × List Event
  | [], b => (b, [])
  | p :: ps, b =>
    match p.beforeProcess with
    | none => runBeforeProcess cfg ps b
    | some h =>
      let next := (h b cfg).getD b
      let rest := runBeforeProcess cfg ps next
      (rest.fst, (p.name, "beforeProcess") :: rest.snd)

/-- `runHook('afterProcess', processed)`: same replace-and-propagate
fold, over the assembled `ProcessedFile`. -/
def runAfterProcess :
    List Plugin → ProcessedFile → ProcessedFile × List Event
  | [], pr => (pr, [])
  | p :: ps, pr =>
    match p.afterProcess with
    | none => runAfterProcess ps pr
    | some h =>
      let next := (h pr).getD pr
      let rest := runAfterProcess ps next
      (rest.fst, (p.name, "afterProcess") :: rest.snd)

/-- `FileProcessor.extractMetadata` (`processor.ts` lines 159–169); the
freshly generated UUID is passed in explicitly since `generateUUID` is
nondeterministic. -/
def extractMetadata (uuid : String) (file : JSFile) : FileMetadata :=
  { id := uuid
    name := file.name
    size := file.size
    type := file.type
    lastModified := file.lastModified
    extension := getExtension file.name }

/-- `FileProcessor.process` (`processor.ts` lines 75–107), with the
sequence of hook invocations made observable as an event log.  The
`catch` block rethrows the error unchanged (it never calls the private
`handleError`, so no `onError` event can ever be emitted). -/
def process (uuid : String) (plugins : List Plugin)
    (cfg : FileValidatorConfig) (file : JSFile) :
    Except String ProcessedFile × List Event :=
  let evs1 := voidHookEvents plugins (fun p => p.beforeValidation) "beforeValidation"
  let vr := validateFile (resolveConfig cfg) file
  let evs2 := voidHookEvents plugins (fun p => p.afterValidation) "afterValidation"
  if !vr.valid then
    (.error ("Kiểm tra hợp lệ thất bại: " ++
        String.intercalate ", " (vr.errors.map (fun e => e.message.getD ""))),
      evs1 ++ evs2)
  else
    let processedBlob := runBeforeProcess cfg plugins (.file file)
    let processed : ProcessedFile :=
      { original := file, blob := processedBlob.fst
        metadata := extractMetadata uuid file }
    let finalProcessed := runAfterProcess plugins processed
    (.ok finalProcessed.fst,
      evs1 ++ evs2 ++ processedBlob.snd ++ finalProcessed.snd)

/-! ### Claim C1 -/

/-- The file of the spec's end-to-end example. -/
def c1File : JSFile := ⟨"a.png", 500, "image/png", 0, ""⟩

/-- The resolved form of the example config
`{maxSize: 1000, allowedExtensions: ["png"]}`. -/
def c1Cfg : ResolvedConfig :=
  resolveConfig ⟨some 1000, none, none, some ["png"], none, none, none⟩

/-- Claim C1: on the spec's example all four built-in rules pass and
`validateFile` reports `valid = true` with empty `errors`, but the
returned report records no passing outcomes at all — the declared
`results` field (the ordered per-rule outcome sequence) is absent from
the object the code builds, contradicting the claim's `outcomes: [4
passes]`. -/
theorem c1_report_has_no_outcomes :
    validateFile c1Cfg c1File =
      { valid := true, errors := [], results := none, file := c1File } ∧
    initRules.map (fun r => (r.check c1File c1Cfg).valid) =
      [some true, some true, some true, some true] :=
  ⟨rfl, rfl⟩

/-! ### Claim C2 -/

/-- The name rule's predicate ignoring `validateFileName`. -/
theorem c2_falsy_config_counterexample :
    (resolveConfig ⟨none, none, none, none, none, some false, none⟩).validateFileName = true ∧
    fileNameRule.validate ⟨"a<b.png", 1, "image/png", 0, ""⟩
      (resolveConfig ⟨none, none, none, none, none, some false, none⟩) = false :=
  ⟨rfl, rfl⟩

/-- Claim C2 (amended): config resolution fills unset fields with the
documented defaults and keeps *truthy* user values, but a falsy user
value (`false`, `0`) is also replaced by the default, because the
constructor uses JavaScript `||`.  In particular `validateFileName`
always resolves to `true`, so the name rule checks every file's name
even for a validator constructed with `validateFileName: false`. -/
theorem c2_resolution_replaces_falsy_with_defaults
    (u : FileValidatorConfig) (f : JSFile) :
    (resolveConfig u).validateFileName = true ∧
    (u.maxSize = none ∨ u.maxSize = some 0 →
      (resolveConfig u).maxSize = 10 * 1024 ^ 2) ∧
    (∀ x : Int, u.maxSize = some x → x ≠ 0 → (resolveConfig u).maxSize = x) ∧
    (∀ x : Int, u.maxFiles = some x → x ≠ 0 → (resolveConfig u).maxFiles = x) ∧
    (∀ l : List String, u.allowedTypes = some l →
      (resolveConfig u).allowedTypes = l) ∧
    (fileNameRule.validate f (resolveConfig u) =
      (!hasInvalidChar f.name && decide (f.name.length > 0) &&
        decide (f.name.length < 255))) := by
  have h1 : (resolveConfig u).validateFileName = true := by
    cases hv : u.validateFileName with
    | none => simp [resolveConfig, jsOrBool, hv]
    | some b => cases b <;> simp [resolveConfig, jsOrBool, hv]
  refine ⟨h1, ?_, ?_, ?_, ?_, ?_⟩
  · rintro (h | h) <;> simp [resolveConfig, jsOrInt, h]
  · intro x hx hne
    simp [resolveConfig, jsOrInt, hx, hne]
  · intro x hx hne
    simp [resolveConfig, jsOrInt, hx, hne]
  · intro l hl
    simp [resolveConfig, jsOrList, hl]
  · simp [fileNameRule, h1]

/-- Witness for C2 (amended) at `{maxSize: 0, validateFileName: false}`. -/
theorem c2_resolution_replaces_falsy_with_defaults_witness :
    (resolveConfig ⟨some 0, none, none, none, none, some false, none⟩).maxSize =
      10 * 1024 ^ 2 ∧
    (resolveConfig ⟨some 0, none, none, none, none, some false, none⟩).validateFileName =
      true :=
  ⟨(c2_resolution_replaces_falsy_with_defaults
      ⟨some 0, none, none, none, none, some false, none⟩
      ⟨"x.png", 1, "image/png", 0, ""⟩).2.1 (Or.inr rfl),
   (c2_resolution_replaces_falsy_with_defaults
      ⟨some 0, none, none, none, none, some false, none⟩
      ⟨"x.png", 1, "image/png", 0, ""⟩).1⟩

/-! ### Claim C3 -/

/-- Custom validators of the C3 scenario: the first is scoped to a MIME
type that does not match the file, the second matches the file's type
and always fails. -/
def c3Validators : List CustomValidatorEntry :=
  [⟨"image/png", fun _ => .fail⟩, ⟨"text/plain", fun _ => .fail⟩]

/-- A plain-text file for the C3 scenario. -/
def c3File : JSFile := ⟨"doc.txt", 10, "text/plain", 0, ""⟩

/-- Config whose custom-validator list is `c3Validators`. -/
def c3Cfg : ResolvedConfig :=
  resolveConfig ⟨none, none, none, none, none, none, some c3Validators⟩

/-- Claim C3: the custom-validator loop `break`s at the first entry
whose declared type differs from the file's type, so the matching,
failing second validator is never evaluated and the file is reported
valid — although running the loop on the list starting at the second
validator alone would have produced a failure. -/
theorem c3_custom_validator_early_exit :
    validateFile c3Cfg c3File =
      { valid := true, errors := [], results := none, file := c3File } ∧
    runCustomValidators c3File (c3Cfg.customValidators.drop 1) =
      [{ valid := some false, rule := "custom",
         message := some "Kiểm tra hợp lệ tùy chỉnh thất bại",
         file := "doc.txt" }] :=
  ⟨rfl, rfl⟩

/-! ### Claim C4 -/

/-- MIME-type prefix before the `/` (the spec's notion). -/
def majorMime (s : String) : String :=
  String.mk (s.data.takeWhile (fun c => c ≠ '/'))

/-- Stem of a wildcard allow-list entry: the entry minus its trailing
two characters `/*`. -/
def wildcardStem (t : String) : String :=
  String.mk (t.data.take (t.data.length - 2))

/-- Modelled from the spec's words for refinement comparison only (the
source's rule is `fileTypeRule`): the type rule passes iff the
allow-list is empty, or the file's type exactly equals an entry, or the
file's MIME-type prefix before `/` equals the prefix of a wildcard
entry of the form `prefix/*`. -/
def specTypeRulePasses (allowed : List String) (f : JSFile) : Bool :=
  allowed.isEmpty ||
  allowed.any (fun t => f.type == t) ||
  allowed.any (fun t => strEndsWith t "/*" && (majorMime f.type == wildcardStem t))

/-- Config with allow-list `["image/*"]`. -/
def c4Cfg : ResolvedConfig :=
  resolveConfig ⟨none, none, some ["image/*"], none, none, none, none⟩

/-- Counterexample to claim C4: with allow-list `["image/*"]` the code
accepts the type `"images/png"`, whose prefix before `/` is `images`,
not `image` — the spec-side predicate rejects it. -/
theorem c4_wildcard_counterexample :
    fileTypeRule.validate ⟨"x", 1, "images/png", 0, ""⟩ c4Cfg = true ∧
    specTypeRulePasses ["image/*"] ⟨"x", 1, "images/png", 0, ""⟩ = false :=
  ⟨by rfl, by rfl⟩

/-- A string starting with `"image/"` also starts with `"image"`. -/
theorem strStartsWith_image_of_slash (s : String)
    (h : strStartsWith s "image/" = true) : strStartsWith s "image" = true := by
  unfold strStartsWith at h ⊢
  rw [List.isPrefixOf_iff_prefix] at h ⊢
  exact List.IsPrefix.trans ⟨['/'], rfl⟩ h

/-- Claim C4 (amended): a wildcard entry is matched by
`file.type.startsWith(entry.replace('/*',''))`, i.e. no `/` is required
after the prefix: with allow-list `["image/*"]` exactly the files whose
type starts with `"image"` pass (so every type starting with `"image/"`
still passes, but e.g. `"images/png"` passes as well instead of
failing). -/
theorem c4_wildcard_matches_by_startsWith (f : JSFile) :
    fileTypeRule.validate f c4Cfg = strStartsWith f.type "image" ∧
    (strStartsWith f.type "image/" = true →
      fileTypeRule.validate f c4Cfg = true) := by
  have hw : strEndsWith "image/*" "/*" = true := rfl
  have hr : replaceFirstStr "image/*" "/*" = "image" := rfl
  have h1 : fileTypeRule.validate f c4Cfg = strStartsWith f.type "image" := by
    simp [fileTypeRule, c4Cfg, resolveConfig, jsOrList, hw, hr]
  exact ⟨h1, fun h => h1.trans (strStartsWith_image_of_slash f.type h)⟩

/-- Witness for C4 (amended): an `image/png` file passes under
`["image/*"]`. -/
theorem c4_wildcard_matches_by_startsWith_witness :
    fileTypeRule.validate ⟨"x", 1, "image/png", 0, ""⟩ c4Cfg = true :=
  (c4_wildcard_matches_by_startsWith ⟨"x", 1, "image/png", 0, ""⟩).2 rfl

/-! ### Claim C5 -/

/-- Claim C5: when the file count exceeds `maxFiles`, `validateFiles`
returns immediately with `valid = false`, exactly one synthetic error
naming the limit and the actual count, and no per-file report list;
otherwise it maps `validateFile` over the files in order, ANDs the
per-file flags, flattens the per-file errors in order, and keeps the
full per-file report list. -/
theorem c5_validateFiles_batch (c : ResolvedConfig) (files : List JSFile) :
    ((files.length : Int) > c.maxFiles →
      validateFiles c files =
        { valid := false
          errors := [{ valid := none, rule := "maxFiles"
                       message := some ("Chỉ được chọn tối đa " ++
                         toString c.maxFiles ++ " file. Bạn đã chọn " ++
                         toString files.length ++ " file.")
                       file := "none" }]
          results := none }) ∧
    ((files.length : Int) ≤ c.maxFiles →
      validateFiles c files =
        { valid := (files.map (validateFile c)).all (fun r => r.valid)
          errors := ((files.map (validateFile c)).map (fun r => r.errors)).flatten
          results := some (files.map (validateFile c)) }) := by
  constructor
  · intro h
    simp [validateFiles, h]
  · intro h
    simp [validateFiles, not_lt.mpr h]

/-- First file of the C5 witness batch (individually valid). -/
def c5FileA : JSFile := ⟨"a.png", 1, "image/png", 0, ""⟩

/-- Second file of the C5 witness batch (individually valid). -/
def c5FileB : JSFile := ⟨"b.png", 1, "image/png", 0, ""⟩

/-- Fully-defaulted config (`maxFiles = 1`) for the C5 witness. -/
def c5Cfg : ResolvedConfig :=
  resolveConfig ⟨none, none, none, none, none, none, none⟩

/-- Witness for C5: two individually valid files against `maxFiles = 1`
produce the single synthetic error and no per-file reports. -/
theorem c5_validateFiles_batch_witness :
    (validateFile c5Cfg c5FileA).valid = true ∧
    (validateFile c5Cfg c5FileB).valid = true ∧
    validateFiles c5Cfg [c5FileA, c5FileB] =
      { valid := false
        errors := [{ valid := none, rule := "maxFiles"
                     message := some "Chỉ được chọn tối đa 1 file. Bạn đã chọn 2 file."
                     file := "none" }]
        results := none } :=
  ⟨rfl, rfl, (c5_validateFiles_batch c5Cfg [c5FileA, c5FileB]).1 (by decide)⟩

/-! ### Hook-log helper lemmas (shared) -/

/-- Every event of a `void`-hook fan-out carries that hook's name. -/
theorem voidHookEvents_names (plugins : List Plugin) (has : Plugin → Bool)
    (hookName : String) :
    ∀ ev ∈ voidHookEvents plugins has hookName, ev.2 = hookName := by
  intro ev hev
  rw [voidHookEvents, List.mem_filterMap] at hev
  obtain ⟨p, _, hp⟩ := hev
  by_cases h : has p
  · simp [h] at hp
    rw [← hp]
  · simp [h] at hp

/-- Every event of the `beforeProcess` fan-out is a `beforeProcess`
event. -/
theorem runBeforeProcess_names (cfg : FileValidatorConfig) :
    ∀ (plugins : List Plugin) (b : BlobVal),
      ∀ ev ∈ (runBeforeProcess cfg plugins b).snd, ev.2 = "beforeProcess" := by
  intro plugins
  induction plugins with
  | nil => intro b ev hev; simp [runBeforeProcess] at hev
  | cons p ps ih =>
    intro b ev hev
    rw [runBeforeProcess] at hev
    cases hp : p.beforeProcess with
    | none =>
      rw [hp] at hev
      exact ih b ev hev
    | some h =>
      rw [hp] at hev
      simp only [List.mem_cons] at hev
      rcases hev with hev | hev
      · rw [hev]
      · exact ih _ ev hev

/-- Every event of the `afterProcess` fan-out is an `afterProcess`
event. -/
theorem runAfterProcess_names :
    ∀ (plugins : List Plugin) (pr : ProcessedFile),
      ∀ ev ∈ (runAfterProcess plugins pr).snd, ev.2 = "afterProcess" := by
  intro plugins
  induction plugins with
  | nil => intro pr ev hev; simp [runAfterProcess] at hev
  | cons p ps ih =>
    intro pr ev hev
    rw [runAfterProcess] at hev
    cases hp : p.afterProcess with
    | none =>
      rw [hp] at hev
      exact ih pr ev hev
    | some h =>
      rw [hp] at hev
      simp only [List.mem_cons] at hev
      rcases hev with hev | hev
      · rw [hev]
      · exact ih _ ev hev

/-- When validation fails, `process` returns the `ValidationFailed`
error with the joined messages, and its log holds only the two
validation-stage fan-outs. -/
theorem process_of_invalid (uuid : String) (plugins : List Plugin)
    (cfg : FileValidatorConfig) (file : JSFile)
    (h : (validateFile (resolveConfig cfg) file).valid = false) :
    process uuid plugins cfg file =
      (.error ("Kiểm tra hợp lệ thất bại: " ++ String.intercalate ", "
          ((validateFile (resolveConfig cfg) file).errors.map
            (fun e => e.message.getD ""))),
       voidHookEvents plugins (fun p => p.beforeValidation) "beforeValidation" ++
         voidHookEvents plugins (fun p => p.afterValidation) "afterValidation") := by
  simp [process, h]

/-- Every event `process` can log is one of the four lifecycle
fan-outs; in particular no `onError` event exists. -/
theorem process_event_names (uuid : String) (plugins : List Plugin)
    (cfg : FileValidatorConfig) (file : JSFile) :
    ∀ ev ∈ (process uuid plugins cfg file).snd,
      ev.2 = "beforeValidation" ∨ ev.2 = "afterValidation" ∨
      ev.2 = "beforeProcess" ∨ ev.2 = "afterProcess" := by
  intro ev hev
  rw [process] at hev
  by_cases h : (validateFile (resolveConfig cfg) file).valid
  · simp only [h, Bool.not_true, if_neg (by simp : ¬ (false = true))] at hev
    rcases List.mem_append.mp hev with hev | hev
    · rcases List.mem_append.mp hev with hev | hev
      · rcases List.mem_append.mp hev with hev | hev
        · exact Or.inl (voidHookEvents_names _ _ _ ev hev)
        · exact Or.inr (Or.inl (voidHookEvents_names _ _ _ ev hev))
      · exact Or.inr (Or.inr (Or.inl (runBeforeProcess_names _ _ _ ev hev)))
    · exact Or.inr (Or.inr (Or.inr (runAfterProcess_names _ _ ev hev)))
  · rw [Bool.not_eq_true] at h
    simp only [h, Bool.not_false, if_pos rfl] at hev
    rcases List.mem_append.mp hev with hev | hev
    · exact Or.inl (voidHookEvents_names _ _ _ ev hev)
    · exact Or.inr (Or.inl (voidHookEvents_names _ _ _ ev hev))

/-! ### Claim C6 -/

/-- Claim C6: for a file whose validation report is invalid, `process`
fails with the `ValidationFailed` error carrying the joined failure
messages, and no `beforeProcess` (preTransform) or `afterProcess`
(postTransform) hook of any registered plugin is invoked. -/
theorem c6_validation_failure_short_circuits (uuid : String)
    (plugins : List Plugin) (cfg : FileValidatorConfig) (file : JSFile)
    (h : (validateFile (resolveConfig cfg) file).valid = false) :
    (process uuid plugins cfg file).fst =
      .error ("Kiểm tra hợp lệ thất bại: " ++ String.intercalate ", "
        ((validateFile (resolveConfig cfg) file).errors.map
          (fun e => e.message.getD ""))) ∧
    ∀ ev ∈ (process uuid plugins cfg file).snd,
      ev.2 ≠ "beforeProcess" ∧ ev.2 ≠ "afterProcess" := by
  rw [process_of_invalid uuid plugins cfg file h]
  refine ⟨rfl, ?_⟩
  intro ev hev
  rcases List.mem_append.mp hev with hev | hev
  · rw [voidHookEvents_names _ _ _ ev hev]
    exact ⟨by decide, by decide⟩
  · rw [voidHookEvents_names _ _ _ ev hev]
    exact ⟨by decide, by decide⟩

/-- A plugin that defines a `beforeProcess` hook (stands for the spec's
"plugin whose preTransform would throw if invoked"). -/
def c6Plugin : Plugin :=
  ⟨"P", false, false, some (fun b _ => some b), none, false⟩

/-- A file whose name contains `:`, hence fails the name rule. -/
def c6File : JSFile := ⟨"bad:name.png", 1, "image/png", 0, ""⟩

/-- The empty user configuration. -/
def cfgEmpty : FileValidatorConfig := ⟨none, none, none, none, none, none, none⟩

/-- Witness for C6: the invalid file makes `process` reject and the
registered plugin's `beforeProcess` hook is never invoked (the log is
empty). -/
theorem c6_validation_failure_short_circuits_witness :
    (validateFile (resolveConfig cfgEmpty) c6File).valid = false ∧
    (process "u" [c6Plugin] cfgEmpty c6File).fst =
      .error "Kiểm tra hợp lệ thất bại: Tên file không hợp lệ. Chứa ký tự không cho phép hoặc độ dài không phù hợp." ∧
    (process "u" [c6Plugin] cfgEmpty c6File).snd = [] :=
  ⟨by rfl,
   (c6_validation_failure_short_circuits "u" [c6Plugin] cfgEmpty c6File (by rfl)).1,
   by rfl⟩

/-! ### Claim C7 -/

/-- A plugin whose `beforeProcess` hook appends a tag to the in-flight
content. -/
def tagPlugin (n tag : String) : Plugin :=
  ⟨n, false, false, some (fun b _ => some (.blob (contentOf b ++ tag))), none, false⟩

/-- Claim C7: `beforeProcess` hooks run in registration order, each
returned value becoming the next hook's input and the content carried
forward; for three tag-appending plugins A, B, C the final blob content
is the original content with the tags appended in order A, B, C. -/
theorem c7_preTransform_propagates (cfg : FileValidatorConfig) (f : JSFile)
    (uuid a b c : String)
    (h : (validateFile (resolveConfig cfg) f).valid = true) :
    process uuid [tagPlugin "A" a, tagPlugin "B" b, tagPlugin "C" c] cfg f =
      (.ok { original := f, blob := .blob (((f.content ++ a) ++ b) ++ c),
             metadata := extractMetadata uuid f },
       [("A", "beforeProcess"), ("B", "beforeProcess"), ("C", "beforeProcess")]) := by
  simp [process, h, voidHookEvents, runBeforeProcess, runAfterProcess, tagPlugin,
    contentOf]

/-- A file accepted by the empty configuration. -/
def c7File : JSFile := ⟨"f.png", 1, "image/png", 0, "X"⟩

/-- Witness for C7 with content `"X"` and tags `"a"`, `"b"`, `"c"`. -/
theorem c7_preTransform_propagates_witness :
    process "u" [tagPlugin "A" "a", tagPlugin "B" "b", tagPlugin "C" "c"]
        cfgEmpty c7File =
      (.ok { original := c7File, blob := .blob "Xabc",
             metadata := { id := "u", name := "f.png", size := 1,
                           type := "image/png", lastModified := 0,
                           extension := "png" } },
       [("A", "beforeProcess"), ("B", "beforeProcess"), ("C", "beforeProcess")]) :=
  c7_preTransform_propagates cfgEmpty c7File "u" "a" "b" "c" (by rfl)

/-! ### Claim C8 -/

/-- A plugin defining only an `onError` hook. -/
def c8Plugin : Plugin := ⟨"E", false, false, none, none, true⟩

/-- A file that fails the name rule (`<` in the name). -/
def c8File : JSFile := ⟨"a<b", 1, "text/plain", 0, ""⟩

/-- Counterexample to claim C8: a `ValidationFailed` error is raised
and propagates, yet the registered plugin's `onError` hook is never
invoked — the invocation log is empty. -/
theorem c8_onError_counterexample :
    (process "u" [c8Plugin] cfgEmpty c8File).fst =
      .error "Kiểm tra hợp lệ thất bại: Tên file không hợp lệ. Chứa ký tự không cho phép hoặc độ dài không phù hợp." ∧
    (process "u" [c8Plugin] cfgEmpty c8File).snd = [] :=
  ⟨by rfl, by rfl⟩

/-- Claim C8 (amended): `process` never invokes any plugin's `onError`
hook (the private `handleError`, which would call them in registration
order, is unreachable); the error itself still propagates to the caller
unsuppressed and unaltered as the `ValidationFailed` message. -/
theorem c8_onError_never_invoked (uuid : String) (plugins : List Plugin)
    (cfg : FileValidatorConfig) (file : JSFile) :
    (∀ ev ∈ (process uuid plugins cfg file).snd, ev.2 ≠ "onError") ∧
    ((validateFile (resolveConfig cfg) file).valid = false →
      (process uuid plugins cfg file).fst =
        .error ("Kiểm tra hợp lệ thất bại: " ++ String.intercalate ", "
          ((validateFile (resolveConfig cfg) file).errors.map
            (fun e => e.message.getD "")))) := by
  constructor
  · intro ev hev
    rcases process_event_names uuid plugins cfg file ev hev with h | h | h | h <;>
      rw [h] <;> decide
  · intro h
    rw [process_of_invalid uuid plugins cfg file h]

/-- Witness for C8 (amended): concrete invalid input where the error
propagates with no `onError` invocation. -/
theorem c8_onError_never_invoked_witness :
    (process "w" [c8Plugin] cfgEmpty c8File).fst =
      .error "Kiểm tra hợp lệ thất bại: Tên file không hợp lệ. Chứa ký tự không cho phép hoặc độ dài không phù hợp." :=
  (c8_onError_never_invoked "w" [c8Plugin] cfgEmpty c8File).2 (by rfl)

/-! ### Claim C9 -/

/-- Claim C9: with no plugins registered, a file passing validation is
processed to a `ProcessedFile` whose `original` is the input file,
whose `blob` is that very same original `File` object (no
transformation), and whose metadata carries the file's declared name,
size, type and lastModified. -/
theorem c9_no_plugins_identity (uuid : String) (cfg : FileValidatorConfig)
    (f : JSFile) (h : (validateFile (resolveConfig cfg) f).valid = true) :
    process uuid [] cfg f =
      (.ok { original := f, blob := .file f,
             metadata := { id := uuid, name := f.name, size := f.size,
                           type := f.type, lastModified := f.lastModified,
                           extension := getExtension f.name } },
       []) := by
  simp [process, h, voidHookEvents, runBeforeProcess, runAfterProcess,
    extractMetadata]

/-- Witness for C9 at a concrete valid file. -/
theorem c9_no_plugins_identity_witness :
    process "u" [] cfgEmpty c7File =
      (.ok { original := c7File, blob := .file c7File,
             metadata := { id := "u", name := "f.png", size := 1,
                           type := "image/png", lastModified := 0,
                           extension := "png" } },
       []) :=
  c9_no_plugins_identity "u" cfgEmpty c7File (by rfl)

/-! ### Claim C10 -/

/-- Claim C10: for any configuration with non-negative `maxFiles`,
`validateFiles` on the empty list returns `valid = true`, no errors,
and an empty per-file report list. -/
theorem c10_empty_batch (c : ResolvedConfig) (h : 0 ≤ c.maxFiles) :
    validateFiles c [] = { valid := true, errors := [], results := some [] } := by
  have h' : ¬ ((([] : List JSFile).length : Int) > c.maxFiles) := by
    simpa using h
  simp [validateFiles, h']
  exact h

/-- Config for the C10 witness (`maxFiles` defaults to 1). -/
def c10Cfg : ResolvedConfig :=
  resolveConfig ⟨none, none, none, none, none, none, none⟩

/-- Witness for C10 at the defaulted configuration. -/
theorem c10_empty_batch_witness :
    validateFiles c10Cfg [] = { valid := true, errors := [], results := some [] } :=
  c10_empty_batch c10Cfg (by decide)

end FileUploader
